import Mathlib

/-!
Verification development for the EquiReal lease-structuring engine.

The repository contains two variants of a risk-scoring and deal-term
derivation core:
* `equireal.py` — an additive many-factor risk scorer
  (`calculate_risk_score`) and a deal-term generator
  (`generate_deal_terms`);
* `equirealty.py` — a three-factor weighted-average scorer
  (`AIAnalysisEngine.calculate_risk_score`) and its own
  `BusinessApplication.generate_deal_terms`.

Both are shallowly embedded below.  Python numbers are modelled by `ℚ`;
dictionary fields that are read with `.get(key, default)` are modelled as
`Option` fields read through `Option.getD`.  Python `round(x, 1)` /
`round(x, 0)` (banker's rounding, round half to even) are modelled by
`round1` / `round0` built on `pyround`.
-/

set_option autoImplicit false

/-- Python's `round` to an integer: round half to even (banker's rounding). -/
def pyround (x : ℚ) : ℤ :=
  if x - ⌊x⌋ = 1/2 then (if ⌊x⌋ % 2 = 0 then ⌊x⌋ else ⌊x⌋ + 1) else round x

/-- Python's `round(x, 1)`: round to one decimal place. -/
def round1 (x : ℚ) : ℚ := (pyround (10 * x) : ℚ) / 10

/-- Python's `round(x, 0)`: round to a whole number (the value stays numeric). -/
def round0 (x : ℚ) : ℚ := (pyround x : ℚ)

theorem pyround_abs_sub (x : ℚ) : |(pyround x : ℚ) - x| ≤ 1/2 := by
  unfold pyround
  split_ifs with h h2
  · rw [abs_le]
    constructor <;> linarith
  · rw [abs_le]
    push_cast
    constructor <;> linarith
  · have := abs_sub_round x
    rw [abs_sub_comm] at this
    exact this

theorem pyround_ge {lo : ℤ} {x : ℚ} (h : (lo : ℚ) ≤ x) : lo ≤ pyround x := by
  have hb := pyround_abs_sub x
  rw [abs_le] at hb
  have h1 : (lo : ℚ) - 1 < (pyround x : ℚ) := by linarith
  have h2 : lo - 1 < pyround x := by exact_mod_cast h1
  omega

theorem pyround_le {hi : ℤ} {x : ℚ} (h : x ≤ (hi : ℚ)) : pyround x ≤ hi := by
  have hb := pyround_abs_sub x
  rw [abs_le] at hb
  have h1 : (pyround x : ℚ) < (hi : ℚ) + 1 := by linarith
  have h2 : pyround x < hi + 1 := by exact_mod_cast h1
  omega

theorem pyround_mono {x y : ℚ} (h : x ≤ y) : pyround x ≤ pyround y := by
  rcases eq_or_lt_of_le h with rfl | hlt
  · exact le_refl _
  · have hx := pyround_abs_sub x
    have hy := pyround_abs_sub y
    rw [abs_le] at hx hy
    have h1 : (pyround x : ℚ) - (pyround y : ℚ) < 1 := by linarith
    have h2 : pyround x - pyround y < 1 := by exact_mod_cast h1
    omega

theorem round1_mem {lo hi : ℤ} (x : ℚ) (h1 : (lo : ℚ) ≤ 10 * x) (h2 : 10 * x ≤ (hi : ℚ)) :
    (lo : ℚ) / 10 ≤ round1 x ∧ round1 x ≤ (hi : ℚ) / 10 := by
  have hl := pyround_ge h1
  have hu := pyround_le h2
  have hl' : (lo : ℚ) ≤ (pyround (10 * x) : ℚ) := by exact_mod_cast hl
  have hu' : (pyround (10 * x) : ℚ) ≤ (hi : ℚ) := by exact_mod_cast hu
  unfold round1
  constructor <;> linarith

theorem round1_mono {x y : ℚ} (h : x ≤ y) : round1 x ≤ round1 y := by
  have := pyround_mono (show 10 * x ≤ 10 * y by linarith)
  have h' : ((pyround (10 * x) : ℤ) : ℚ) ≤ ((pyround (10 * y) : ℤ) : ℚ) := by exact_mod_cast this
  unfold round1
  linarith

namespace equireal

/-- The business-data record consumed by `equireal.py`.  Each dictionary key
that the scoring and term-generation code reads with `.get` is an `Option`
field; `none` models an absent key. -/
structure BusinessData where
  id : String := ""
  business_name : String := ""
  timestamp : String := ""
  business_type : Option String := none
  industry : Option String := none
  current_revenue : Option ℚ := none
  projected_revenue_12m : Option ℚ := none
  burn_rate : Option ℚ := none
  runway_months : Option ℚ := none
  team_size : Option ℚ := none
  founder_experience : Option String := none
  funding_raised : Option ℚ := none
  has_customers : Option Bool := none
  has_revenue : Option Bool := none
  space_size : Option ℚ := none

/-- The `business_type_risk` lookup table in `calculate_risk_score`. -/
def business_type_risk (s : String) : Option ℚ :=
  match s with
  | "SaaS Startup" => some (-12)
  | "E-commerce" => some (-8)
  | "Professional Services" => some (-10)
  | "Manufacturing" => some 5
  | "Restaurant" => some 28
  | "Retail Store" => some 18
  | "Franchise" => some (-8)
  | "Other" => some 12
  | _ => none

/-- The `industry_risk` lookup table in `calculate_risk_score`. -/
def industry_risk (s : String) : Option ℚ :=
  match s with
  | "Technology" => some (-12)
  | "Healthcare" => some (-8)
  | "Finance" => some (-5)
  | "Education" => some (-3)
  | "Food & Beverage" => some 22
  | "Retail" => some 15
  | "Real Estate" => some 8
  | "Other" => some 10
  | _ => none

/-- `business_type_risk.get(business_data.get('business_type', 'Other'), 0)`:
a missing key defaults to `"Other"`, an unmapped string to `0`. -/
def typeAdj (o : Option String) : ℚ := (business_type_risk (o.getD "Other")).getD 0

/-- `industry_risk.get(business_data.get('industry', 'Other'), 0)`. -/
def industryAdj (o : Option String) : ℚ := (industry_risk (o.getD "Other")).getD 0

/-- Revenue-traction tier adjustment on `current_revenue`. -/
def revenueTractionAdj (cur : ℚ) : ℚ :=
  if cur ≥ 50000 then -20
  else if cur ≥ 20000 then -15
  else if cur ≥ 10000 then -10
  else if cur ≥ 5000 then -5
  else if cur > 0 then 0
  else 15

/-- Growth-realism adjustment: only when both `current_revenue` and
`projected_revenue_12m` are positive is `growth_multiple` computed. -/
def growthAdj (cur proj : ℚ) : ℚ :=
  if cur > 0 ∧ proj > 0 then
    let growth_multiple := proj / cur
    if growth_multiple > 20 then 25
    else if growth_multiple > 10 then 15
    else if growth_multiple > 5 then 8
    else if growth_multiple > 2 then -5
    else if growth_multiple > 1.2 then 0
    else 20
  else 0

/-- Team-size adjustment table. -/
def teamAdj (t : ℚ) : ℚ :=
  if 8 ≤ t ∧ t ≤ 25 then -10
  else if 5 ≤ t ∧ t ≤ 7 then -5
  else if 3 ≤ t ∧ t ≤ 4 then 0
  else if t = 2 then 8
  else if t = 1 then 18
  else 12

/-- The `experience_impact` lookup table. -/
def experience_impact (s : String) : Option ℚ :=
  match s with
  | "Previous successful exit" => some (-25)
  | "Serial entrepreneur" => some (-18)
  | "Industry veteran (10+ years)" => some (-15)
  | "First-time founder" => some 12
  | _ => none

/-- `experience_impact.get(business_data.get('founder_experience',
'First-time founder'), 0)`. -/
def experienceAdj (o : Option String) : ℚ :=
  (experience_impact (o.getD "First-time founder")).getD 0

/-- Funding-raised tier adjustment. -/
def fundingAdj (f : ℚ) : ℚ :=
  if f ≥ 5000000 then -25
  else if f ≥ 2000000 then -20
  else if f ≥ 500000 then -15
  else if f ≥ 100000 then -10
  else if f > 0 then -5
  else 0

/-- Market-validation adjustment from `has_customers` / `has_revenue`. -/
def marketAdj (hc hr : Bool) : ℚ :=
  if hc && hr then -12
  else if hc then -6
  else if hr then -8
  else 0

/-- Cash-runway tier adjustment. -/
def runwayAdj (r : ℚ) : ℚ :=
  if r > 24 then -15
  else if r > 18 then -10
  else if r > 12 then -5
  else if r > 6 then 5
  else if r > 3 then 15
  else 30

/-- The accumulated `base_score` of `calculate_risk_score`, before the final
clamp to `[10, 90]`. -/
def baseScore (b : BusinessData) : ℚ :=
  50 + typeAdj b.business_type + industryAdj b.industry
    + revenueTractionAdj (b.current_revenue.getD 0)
    + growthAdj (b.current_revenue.getD 0) (b.projected_revenue_12m.getD 0)
    + teamAdj (b.team_size.getD 1)
    + experienceAdj b.founder_experience
    + fundingAdj (b.funding_raised.getD 0)
    + marketAdj (b.has_customers.getD false) (b.has_revenue.getD false)
    + runwayAdj (b.runway_months.getD 0)

/-- `calculate_risk_score` of `equireal.py`:
`round(max(10, min(90, base_score)), 1)`. -/
def calculate_risk_score (b : BusinessData) : ℚ :=
  round1 (max 10 (min 90 (baseScore b)))

/-- The same accumulated score with the growth-realism branch omitted
entirely (used to express that the branch contributes nothing when the
guard fails). -/
def baseScoreNoGrowth (b : BusinessData) : ℚ :=
  50 + typeAdj b.business_type + industryAdj b.industry
    + revenueTractionAdj (b.current_revenue.getD 0)
    + teamAdj (b.team_size.getD 1)
    + experienceAdj b.founder_experience
    + fundingAdj (b.funding_raised.getD 0)
    + marketAdj (b.has_customers.getD false) (b.has_revenue.getD false)
    + runwayAdj (b.runway_months.getD 0)

/-- The risk score as it would be computed with the growth-realism
adjustment deleted from the pipeline. -/
def calculate_risk_score_no_growth (b : BusinessData) : ℚ :=
  round1 (max 10 (min 90 (baseScoreNoGrowth b)))

/-- The deal-terms record returned by `generate_deal_terms` in
`equireal.py`. -/
structure DealTerms where
  risk_score : ℚ
  upfront_rent_percent : ℚ
  equity_percent : ℚ
  revenue_share_percent : ℚ
  revenue_share_years : ℕ
  monthly_rent : ℚ
  monthly_market_rent : ℚ
  deferred_amount : ℚ
  annual_market_rent : ℚ
  revenue_trigger : ℚ
  space_size : ℚ

/-- `generate_deal_terms` of `equireal.py`. -/
def generate_deal_terms (b : BusinessData) (risk_score : ℚ) : DealTerms :=
  let base_upfront_rent : ℚ := 30
  let base_equity : ℚ := 5
  let base_revenue_share : ℚ := 3
  let base_revenue_years : ℕ := 3
  let risk_multiplier := (risk_score - 50) / 50
  let upfront_rent_percent := max 20 (min 50 (base_upfront_rent + risk_multiplier * 15))
  let equity_percent := max 2 (min 12 (base_equity + risk_multiplier * 4))
  let revenue_share_percent := max 1 (min 6 (base_revenue_share + risk_multiplier * 2))
  let revenue_share_years :=
    if b.business_type = some "SaaS Startup" ∨ b.business_type = some "E-commerce" then 4
    else if b.business_type = some "Restaurant" then 2
    else base_revenue_years
  let space_size := b.space_size.getD 1000
  let annual_market_rent := space_size * 25
  let monthly_market_rent := annual_market_rent / 12
  let monthly_rent := monthly_market_rent * (upfront_rent_percent / 100)
  let deferred_amount := monthly_market_rent - monthly_rent
  let current_revenue := b.current_revenue.getD 0
  let revenue_trigger := max (current_revenue * 1.5) 5000
  { risk_score := risk_score
    upfront_rent_percent := round1 upfront_rent_percent
    equity_percent := round1 equity_percent
    revenue_share_percent := round1 revenue_share_percent
    revenue_share_years := revenue_share_years
    monthly_rent := round0 monthly_rent
    monthly_market_rent := round0 monthly_market_rent
    deferred_amount := round0 deferred_amount
    annual_market_rent := round0 annual_market_rent
    revenue_trigger := round0 revenue_trigger
    space_size := space_size }

end equireal

namespace equirealty

/-- The `financial_data` sub-dictionary read by `equirealty.py`
(`business_data.get('financial_data', {})`). -/
structure FinancialData where
  current_revenue : Option ℚ := none
  is_profitable : Option Bool := none

/-- The business-data record consumed by `equirealty.py`. -/
structure BusinessData where
  user_id : String := ""
  business_name : String := ""
  industry : Option String := none
  team_size : Option ℚ := none
  space_size : Option ℚ := none
  financial_data : Option FinancialData := none

/-- The analysis record returned by `AIAnalysisEngine.calculate_risk_score`. -/
structure RiskAnalysis where
  overall_risk : ℚ
  industry_risk : ℚ
  financial_risk : ℚ
  team_risk : ℚ
  confidence_score : ℚ
  risk_trend : String

/-- The `industry_risks` lookup table inside
`AIAnalysisEngine.calculate_risk_score`. -/
def industry_risks (s : String) : Option ℚ :=
  match s with
  | "Software as a Service (SaaS)" => some 25
  | "FinTech" => some 35
  | "E-commerce" => some 45
  | "Restaurants" => some 70
  | "Professional Services" => some 30
  | "Manufacturing" => some 50
  | _ => none

/-- `AIAnalysisEngine.calculate_risk_score` of `equirealty.py`:
three sub-scores combined as `0.4*industry + 0.4*financial + 0.2*team`,
clamped to `[10, 90]`. -/
def AIAnalysisEngine.calculate_risk_score (b : BusinessData) : RiskAnalysis :=
  let financial_data := b.financial_data.getD {}
  let industry_risk := (b.industry.bind industry_risks).getD 50
  let current_revenue := financial_data.current_revenue.getD 0
  let fr0 : ℚ := 50
  let fr1 :=
    if current_revenue > 100000 then fr0 - 20
    else if current_revenue > 50000 then fr0 - 10
    else if current_revenue = 0 then fr0 + 20
    else fr0
  let financial_risk := if financial_data.is_profitable.getD false then fr1 - 15 else fr1
  let tr0 : ℚ := 50
  let team_size := b.team_size.getD 1
  let team_risk :=
    if 5 ≤ team_size ∧ team_size ≤ 50 then tr0 - 15
    else if team_size < 3 then tr0 + 20
    else tr0
  let overall0 := industry_risk * 0.4 + financial_risk * 0.4 + team_risk * 0.2
  let overall_risk := max 10 (min 90 overall0)
  { overall_risk := round1 overall_risk
    industry_risk := round1 industry_risk
    financial_risk := round1 financial_risk
    team_risk := round1 team_risk
    confidence_score := 85.0
    risk_trend := "Stable Risk" }

/-- The deal-terms record returned by
`BusinessApplication.generate_deal_terms` in `equirealty.py`. -/
structure DealTerms where
  risk_score : ℚ
  upfront_rent_percent : ℚ
  equity_percent : ℚ
  revenue_share_percent : ℚ
  monthly_rent : ℚ
  monthly_market_rent : ℚ
  monthly_savings : ℚ
  space_size : ℚ

/-- `BusinessApplication.generate_deal_terms` of `equirealty.py`.  The
method reads `risk_score = ai_analysis['overall_risk']` from the analysis
record passed to it. -/
def BusinessApplication.generate_deal_terms (b : BusinessData) (ai_analysis : RiskAnalysis) :
    DealTerms :=
  let risk_score := ai_analysis.overall_risk
  let financial_data := b.financial_data.getD {}
  let base_upfront_rent : ℚ := 30
  let base_equity : ℚ := 5
  let base_revenue_share : ℚ := 3
  let risk_factor := (risk_score - 50) / 50
  let up0 := base_upfront_rent + risk_factor * 20
  let eq0 := base_equity + risk_factor * 5
  let rs0 := base_revenue_share + risk_factor * 2
  let profitable := financial_data.is_profitable.getD false
  let up1 := if profitable then up0 - 5 else up0
  let eq1 := if profitable then eq0 - 1 else eq0
  let current_revenue := financial_data.current_revenue.getD 0
  let up2 := if current_revenue > 100000 then up1 - 8 else up1
  let eq2 := if current_revenue > 100000 then eq1 - 1.5 else eq1
  let upfront_rent_percent := max 15 (min 55 up2)
  let equity_percent := max 1 (min 12 eq2)
  let revenue_share_percent := max 0.5 (min 6 rs0)
  let space_size := b.space_size.getD 1000
  let base_rate : ℚ := 35
  let annual_market_rent := space_size * base_rate
  let monthly_market_rent := annual_market_rent / 12
  let monthly_rent := monthly_market_rent * (upfront_rent_percent / 100)
  let monthly_savings := monthly_market_rent - monthly_rent
  { risk_score := round1 risk_score
    upfront_rent_percent := round1 upfront_rent_percent
    equity_percent := round1 equity_percent
    revenue_share_percent := round1 revenue_share_percent
    monthly_rent := round0 monthly_rent
    monthly_market_rent := round0 monthly_market_rent
    monthly_savings := round0 monthly_savings
    space_size := space_size }

end equirealty

theorem le_round1_of_le {b x : ℚ} (hb : round1 b = b) (h : b ≤ x) : b ≤ round1 x := by
  rw [← hb]
  exact round1_mono h

theorem round1_le_of_le {b x : ℚ} (hb : round1 b = b) (h : x ≤ b) : round1 x ≤ b := by
  rw [← hb]
  exact round1_mono h

theorem round0_add_sub_abs_le (a b : ℚ) : |round0 a + round0 b - round0 (a + b)| ≤ 1 := by
  obtain ⟨ha1, ha2⟩ := abs_le.mp (pyround_abs_sub a)
  obtain ⟨hb1, hb2⟩ := abs_le.mp (pyround_abs_sub b)
  obtain ⟨hc1, hc2⟩ := abs_le.mp (pyround_abs_sub (a + b))
  have key : ((pyround a + pyround b - pyround (a + b) : ℤ) : ℚ)
      = ((pyround a : ℚ) - a) + ((pyround b : ℚ) - b) - ((pyround (a + b) : ℚ) - (a + b)) := by
    push_cast
    ring
  have habs : |((pyround a + pyround b - pyround (a + b) : ℤ) : ℚ)| ≤ 3/2 := by
    rw [key, abs_le]
    constructor <;> linarith
  have hint : |pyround a + pyround b - pyround (a + b)| ≤ 1 := by
    by_contra hcon
    push_neg at hcon
    have h2 : (2 : ℤ) ≤ |pyround a + pyround b - pyround (a + b)| := by omega
    have h3 : (2 : ℚ) ≤ |((pyround a + pyround b - pyround (a + b) : ℤ) : ℚ)| := by
      rw [← Int.cast_abs]
      exact_mod_cast h2
    linarith
  unfold round0
  have e : (pyround a : ℚ) + (pyround b : ℚ) - (pyround (a + b) : ℚ)
      = ((pyround a + pyround b - pyround (a + b) : ℤ) : ℚ) := by
    push_cast
    ring
  rw [e, ← Int.cast_abs]
  exact_mod_cast hint

/-- The two rounded dollar components of a split sum back to the rounded
total with absolute error at most one unit. -/
theorem round0_split_abs_le (M X : ℚ) : |round0 X + round0 (M - X) - round0 M| ≤ 1 := by
  have h := round0_add_sub_abs_le X (M - X)
  have e : X + (M - X) = M := by ring
  rwa [e] at h

/-- C1: for every business-data record (arbitrary field values, absent
optional fields taking their documented defaults), the overall risk returned
by the risk scorer lies in [10, 90] — both for the additive scorer
`equireal.calculate_risk_score` and for the `overall_risk` field of the
three-factor scorer `equirealty.AIAnalysisEngine.calculate_risk_score`. -/
theorem C1_overall_risk_in_10_90 :
    (∀ b : equireal.BusinessData,
      10 ≤ equireal.calculate_risk_score b ∧ equireal.calculate_risk_score b ≤ 90) ∧
    (∀ b : equirealty.BusinessData,
      10 ≤ (equirealty.AIAnalysisEngine.calculate_risk_score b).overall_risk ∧
        (equirealty.AIAnalysisEngine.calculate_risk_score b).overall_risk ≤ 90) := by
  have h10 : round1 (10 : ℚ) = 10 := by norm_num [round1, pyround, round_eq]
  have h90 : round1 (90 : ℚ) = 90 := by norm_num [round1, pyround, round_eq]
  constructor
  · intro b
    unfold equireal.calculate_risk_score
    exact ⟨le_round1_of_le h10 (le_max_left _ _),
      round1_le_of_le h90 (max_le (by norm_num) (min_le_left _ _))⟩
  · intro b
    simp only [equirealty.AIAnalysisEngine.calculate_risk_score]
    exact ⟨le_round1_of_le h10 (le_max_left _ _),
      round1_le_of_le h90 (max_le (by norm_num) (min_le_left _ _))⟩

/-- C2: for every business-data record and every numeric risk score, the
percentage outputs of both deal-term generators lie within their documented
per-variant clamp bounds: `[20,50]`, `[2,12]`, `[1,6]` for
`equireal.generate_deal_terms` and `[15,55]`, `[1,12]`, `[0.5,6]` for
`equirealty.BusinessApplication.generate_deal_terms`. -/
theorem C2_percentages_within_documented_bounds :
    (∀ (b : equireal.BusinessData) (r : ℚ),
      (20 ≤ (equireal.generate_deal_terms b r).upfront_rent_percent ∧
        (equireal.generate_deal_terms b r).upfront_rent_percent ≤ 50) ∧
      (2 ≤ (equireal.generate_deal_terms b r).equity_percent ∧
        (equireal.generate_deal_terms b r).equity_percent ≤ 12) ∧
      (1 ≤ (equireal.generate_deal_terms b r).revenue_share_percent ∧
        (equireal.generate_deal_terms b r).revenue_share_percent ≤ 6)) ∧
    (∀ (b : equirealty.BusinessData) (ai : equirealty.RiskAnalysis),
      (15 ≤ (equirealty.BusinessApplication.generate_deal_terms b ai).upfront_rent_percent ∧
        (equirealty.BusinessApplication.generate_deal_terms b ai).upfront_rent_percent ≤ 55) ∧
      (1 ≤ (equirealty.BusinessApplication.generate_deal_terms b ai).equity_percent ∧
        (equirealty.BusinessApplication.generate_deal_terms b ai).equity_percent ≤ 12) ∧
      (0.5 ≤ (equirealty.BusinessApplication.generate_deal_terms b ai).revenue_share_percent ∧
        (equirealty.BusinessApplication.generate_deal_terms b ai).revenue_share_percent ≤ 6)) := by
  constructor
  · intro b r
    simp only [equireal.generate_deal_terms]
    refine ⟨⟨?_, ?_⟩, ⟨?_, ?_⟩, ⟨?_, ?_⟩⟩
    · exact le_round1_of_le (by norm_num [round1, pyround, round_eq]) (le_max_left _ _)
    · exact round1_le_of_le (by norm_num [round1, pyround, round_eq])
        (max_le (by norm_num) (min_le_left _ _))
    · exact le_round1_of_le (by norm_num [round1, pyround, round_eq]) (le_max_left _ _)
    · exact round1_le_of_le (by norm_num [round1, pyround, round_eq])
        (max_le (by norm_num) (min_le_left _ _))
    · exact le_round1_of_le (by norm_num [round1, pyround, round_eq]) (le_max_left _ _)
    · exact round1_le_of_le (by norm_num [round1, pyround, round_eq])
        (max_le (by norm_num) (min_le_left _ _))
  · intro b ai
    simp only [equirealty.BusinessApplication.generate_deal_terms]
    refine ⟨⟨?_, ?_⟩, ⟨?_, ?_⟩, ⟨?_, ?_⟩⟩
    · exact le_round1_of_le (by norm_num [round1, pyround, round_eq]) (le_max_left _ _)
    · exact round1_le_of_le (by norm_num [round1, pyround, round_eq])
        (max_le (by norm_num) (min_le_left _ _))
    · exact le_round1_of_le (by norm_num [round1, pyround, round_eq]) (le_max_left _ _)
    · exact round1_le_of_le (by norm_num [round1, pyround, round_eq])
        (max_le (by norm_num) (min_le_left _ _))
    · exact le_round1_of_le (by norm_num [round1, pyround, round_eq]) (le_max_left _ _)
    · exact round1_le_of_le (by norm_num [round1, pyround, round_eq])
        (max_le (by norm_num) (min_le_left _ _))

/-- C3: for every business-data record and risk score, the rounded dollar
components of the generated deal terms satisfy
`monthly_rent + deferred_amount = monthly_market_rent` (with
`monthly_savings` playing the role of the deferred amount in the
`equirealty` variant) to within one unit. -/
theorem C3_rent_split_identity_within_one_unit :
    (∀ (b : equireal.BusinessData) (r : ℚ),
      |(equireal.generate_deal_terms b r).monthly_rent +
          (equireal.generate_deal_terms b r).deferred_amount -
          (equireal.generate_deal_terms b r).monthly_market_rent| ≤ 1) ∧
    (∀ (b : equirealty.BusinessData) (ai : equirealty.RiskAnalysis),
      |(equirealty.BusinessApplication.generate_deal_terms b ai).monthly_rent +
          (equirealty.BusinessApplication.generate_deal_terms b ai).monthly_savings -
          (equirealty.BusinessApplication.generate_deal_terms b ai).monthly_market_rent| ≤ 1) := by
  constructor
  · intro b r
    simp only [equireal.generate_deal_terms]
    exact round0_split_abs_le _ _
  · intro b ai
    simp only [equirealty.BusinessApplication.generate_deal_terms]
    exact round0_split_abs_le _ _

/-- C10: in `equireal.generate_deal_terms`, whenever the input risk score
lies in [10, 90], the percentages occupy strictly tighter ranges than the
documented clamps: `upfront_rent_percent ∈ [20, 42]`,
`equity_percent ∈ [2, 8.2]`, `revenue_share_percent ∈ [1.4, 4.6]`, because
the risk multiplier `(risk_score - 50)/50` is confined to `[-0.8, 0.8]`. -/
theorem C10_tighter_ranges_for_bounded_risk
    (b : equireal.BusinessData) (r : ℚ) (h1 : (10 : ℚ) ≤ r) (h2 : r ≤ 90) :
    (20 ≤ (equireal.generate_deal_terms b r).upfront_rent_percent ∧
      (equireal.generate_deal_terms b r).upfront_rent_percent ≤ 42) ∧
    (2 ≤ (equireal.generate_deal_terms b r).equity_percent ∧
      (equireal.generate_deal_terms b r).equity_percent ≤ 8.2) ∧
    (1.4 ≤ (equireal.generate_deal_terms b r).revenue_share_percent ∧
      (equireal.generate_deal_terms b r).revenue_share_percent ≤ 4.6) := by
  have hup : (30 : ℚ) + (r - 50) / 50 * 15 ≤ 42 := by linarith
  have heq : (5 : ℚ) + (r - 50) / 50 * 4 ≤ 8.2 := by linarith
  have hrsl : (1.4 : ℚ) ≤ 3 + (r - 50) / 50 * 2 := by linarith
  have hrsu : (3 : ℚ) + (r - 50) / 50 * 2 ≤ 4.6 := by linarith
  simp only [equireal.generate_deal_terms]
  refine ⟨⟨?_, ?_⟩, ⟨?_, ?_⟩, ⟨?_, ?_⟩⟩
  · exact le_round1_of_le (by norm_num [round1, pyround, round_eq]) (le_max_left _ _)
  · exact round1_le_of_le (by norm_num [round1, pyround, round_eq])
      (max_le (by norm_num) ((min_le_right _ _).trans hup))
  · exact le_round1_of_le (by norm_num [round1, pyround, round_eq]) (le_max_left _ _)
  · exact round1_le_of_le (by norm_num [round1, pyround, round_eq])
      (max_le (by norm_num) ((min_le_right _ _).trans heq))
  · exact le_round1_of_le (by norm_num [round1, pyround, round_eq])
      (le_max_of_le_right (le_min (by norm_num) hrsl))
  · exact round1_le_of_le (by norm_num [round1, pyround, round_eq])
      (max_le (by norm_num) ((min_le_right _ _).trans hrsu))

theorem growthAdj_eq_zero {cur proj : ℚ} (h : cur ≤ 0 ∨ proj ≤ 0) :
    equireal.growthAdj cur proj = 0 := by
  unfold equireal.growthAdj
  rw [if_neg]
  rintro ⟨h1, h2⟩
  rcases h with h | h <;> linarith

theorem revenueTractionAdj_antitone {r1 r2 : ℚ} (h : r1 ≤ r2) :
    equireal.revenueTractionAdj r2 ≤ equireal.revenueTractionAdj r1 := by
  unfold equireal.revenueTractionAdj
  split_ifs <;> linarith

/-- C4 counterexample: holding every other field fixed, raising
`current_revenue` from 2999 to 3001 (with `projected_revenue_12m = 6000`)
moves the growth multiple from the `> 2` bucket (−5) to the `> 1.2` bucket
(0) and so RAISES the overall risk from 56 to 61. -/
theorem C4_counterexample_revenue_increase_raises_risk :
    equireal.calculate_risk_score
        { business_type := some "SaaS Startup", industry := some "Technology",
          current_revenue := some 2999, projected_revenue_12m := some 6000,
          team_size := some 1, runway_months := some 7 } <
      equireal.calculate_risk_score
        { business_type := some "SaaS Startup", industry := some "Technology",
          current_revenue := some 3001, projected_revenue_12m := some 6000,
          team_size := some 1, runway_months := some 7 } := by
  norm_num [equireal.calculate_risk_score, equireal.baseScore, equireal.typeAdj,
    equireal.industryAdj, equireal.business_type_risk, equireal.industry_risk,
    equireal.revenueTractionAdj, equireal.growthAdj, equireal.teamAdj,
    equireal.experienceAdj, equireal.experience_impact, equireal.fundingAdj,
    equireal.marketAdj, equireal.runwayAdj, round1, pyround, round_eq]

/-- C4 (amended): when the growth-realism adjustment cannot fire
(`projected_revenue_12m` absent or 0), increasing `current_revenue` while
holding every other field fixed never increases the overall risk returned by
`equireal.calculate_risk_score`; in particular the revenue-traction tier
adjustment is monotonically nonincreasing in `current_revenue`. -/
theorem C4_amended_revenue_monotone_when_growth_skipped
    (b : equireal.BusinessData) (r1 r2 : ℚ)
    (hp : b.projected_revenue_12m.getD 0 = 0) (h : r1 ≤ r2) :
    equireal.calculate_risk_score { b with current_revenue := some r2 } ≤
      equireal.calculate_risk_score { b with current_revenue := some r1 } := by
  have e1 : equireal.baseScore { b with current_revenue := some r1 } =
      50 + equireal.typeAdj b.business_type + equireal.industryAdj b.industry
        + equireal.revenueTractionAdj r1
        + equireal.growthAdj r1 (b.projected_revenue_12m.getD 0)
        + equireal.teamAdj (b.team_size.getD 1)
        + equireal.experienceAdj b.founder_experience
        + equireal.fundingAdj (b.funding_raised.getD 0)
        + equireal.marketAdj (b.has_customers.getD false) (b.has_revenue.getD false)
        + equireal.runwayAdj (b.runway_months.getD 0) := rfl
  have e2 : equireal.baseScore { b with current_revenue := some r2 } =
      50 + equireal.typeAdj b.business_type + equireal.industryAdj b.industry
        + equireal.revenueTractionAdj r2
        + equireal.growthAdj r2 (b.projected_revenue_12m.getD 0)
        + equireal.teamAdj (b.team_size.getD 1)
        + equireal.experienceAdj b.founder_experience
        + equireal.fundingAdj (b.funding_raised.getD 0)
        + equireal.marketAdj (b.has_customers.getD false) (b.has_revenue.getD false)
        + equireal.runwayAdj (b.runway_months.getD 0) := rfl
  have hg1 : equireal.growthAdj r1 (b.projected_revenue_12m.getD 0) = 0 := by
    rw [hp]
    exact growthAdj_eq_zero (Or.inr le_rfl)
  have hg2 : equireal.growthAdj r2 (b.projected_revenue_12m.getD 0) = 0 := by
    rw [hp]
    exact growthAdj_eq_zero (Or.inr le_rfl)
  have htr := revenueTractionAdj_antitone h
  have hb : equireal.baseScore { b with current_revenue := some r2 } ≤
      equireal.baseScore { b with current_revenue := some r1 } := by
    rw [e1, e2, hg1, hg2]
    linarith
  unfold equireal.calculate_risk_score
  exact round1_mono (max_le_max le_rfl (min_le_min le_rfl hb))

/-- Witness for the amended C4 at `b = {}`, `r1 = 0`, `r2 = 5000`. -/
theorem C4_amended_revenue_monotone_witness :
    (({} : equireal.BusinessData).projected_revenue_12m.getD 0 = 0 ∧ (0 : ℚ) ≤ 5000) ∧
    equireal.calculate_risk_score
        { ({} : equireal.BusinessData) with current_revenue := some 5000 } ≤
      equireal.calculate_risk_score
        { ({} : equireal.BusinessData) with current_revenue := some 0 } :=
  ⟨⟨rfl, by norm_num⟩,
    C4_amended_revenue_monotone_when_growth_skipped {} 0 5000 rfl (by norm_num)⟩

/-- C5 counterexample: two records identical except for
`business_type = "Bakery"` (unrecognized) versus `business_type = "Other"`
receive different scores (10 versus 22): the unrecognized string is NOT
treated like the "Other" bucket. -/
theorem C5_counterexample_unknown_type_differs_from_other :
    equireal.calculate_risk_score
        { business_type := some "Bakery", industry := some "Technology",
          current_revenue := some 0, team_size := some 10,
          founder_experience := some "Serial entrepreneur", runway_months := some 30 } ≠
      equireal.calculate_risk_score
        { business_type := some "Other", industry := some "Technology",
          current_revenue := some 0, team_size := some 10,
          founder_experience := some "Serial entrepreneur", runway_months := some 30 } := by
  have hB : equireal.typeAdj (some "Bakery") = 0 := rfl
  have hO : equireal.typeAdj (some "Other") = 12 := rfl
  norm_num [equireal.calculate_risk_score, equireal.baseScore, hB, hO,
    equireal.industryAdj, equireal.industry_risk,
    equireal.revenueTractionAdj, equireal.growthAdj, equireal.teamAdj,
    equireal.experienceAdj, equireal.experience_impact, equireal.fundingAdj,
    equireal.marketAdj, equireal.runwayAdj, round1, pyround, round_eq]

/-- C5 (amended): a business_type or industry string outside the recognized
set receives adjustment 0 (not the "Other" offset); only an ABSENT key falls
back to "Other" (+12 for business_type, +10 for industry).  The score is the
same for any two unrecognized strings, and the function never fails. -/
theorem C5_amended_unknown_strings_get_zero_adjustment
    (s t : String) (hs : equireal.business_type_risk s = none)
    (ht : equireal.industry_risk t = none) (b : equireal.BusinessData) :
    equireal.typeAdj (some s) = 0 ∧ equireal.industryAdj (some t) = 0 ∧
    equireal.typeAdj none = 12 ∧ equireal.industryAdj none = 10 ∧
    equireal.calculate_risk_score { b with business_type := some s, industry := some t } =
      equireal.calculate_risk_score
        { b with business_type := some "", industry := some "" } := by
  have h1 : equireal.typeAdj (some s) = 0 := by
    simp [equireal.typeAdj, hs]
  have h2 : equireal.industryAdj (some t) = 0 := by
    simp [equireal.industryAdj, ht]
  refine ⟨h1, h2, rfl, rfl, ?_⟩
  have e1 : equireal.baseScore { b with business_type := some s, industry := some t } =
      50 + equireal.typeAdj (some s) + equireal.industryAdj (some t)
        + equireal.revenueTractionAdj (b.current_revenue.getD 0)
        + equireal.growthAdj (b.current_revenue.getD 0) (b.projected_revenue_12m.getD 0)
        + equireal.teamAdj (b.team_size.getD 1)
        + equireal.experienceAdj b.founder_experience
        + equireal.fundingAdj (b.funding_raised.getD 0)
        + equireal.marketAdj (b.has_customers.getD false) (b.has_revenue.getD false)
        + equireal.runwayAdj (b.runway_months.getD 0) := rfl
  have e2 : equireal.baseScore { b with business_type := some "", industry := some "" } =
      50 + equireal.typeAdj (some "") + equireal.industryAdj (some "")
        + equireal.revenueTractionAdj (b.current_revenue.getD 0)
        + equireal.growthAdj (b.current_revenue.getD 0) (b.projected_revenue_12m.getD 0)
        + equireal.teamAdj (b.team_size.getD 1)
        + equireal.experienceAdj b.founder_experience
        + equireal.fundingAdj (b.funding_raised.getD 0)
        + equireal.marketAdj (b.has_customers.getD false) (b.has_revenue.getD false)
        + equireal.runwayAdj (b.runway_months.getD 0) := rfl
  have hz1 : equireal.typeAdj (some "") = 0 := rfl
  have hz2 : equireal.industryAdj (some "") = 0 := rfl
  have hb : equireal.baseScore { b with business_type := some s, industry := some t } =
      equireal.baseScore { b with business_type := some "", industry := some "" } := by
    rw [e1, e2, h1, h2, hz1, hz2]
  unfold equireal.calculate_risk_score
  rw [hb]

/-- Witness for the amended C5 at `s = "Bakery"`, `t = "Bakeries"`, `b = {}`. -/
theorem C5_amended_unknown_strings_witness :
    (equireal.business_type_risk "Bakery" = none ∧
      equireal.industry_risk "Bakeries" = none) ∧
    (equireal.typeAdj (some "Bakery") = 0 ∧ equireal.industryAdj (some "Bakeries") = 0 ∧
    equireal.typeAdj none = 12 ∧ equireal.industryAdj none = 10 ∧
    equireal.calculate_risk_score
        { ({} : equireal.BusinessData) with
          business_type := some "Bakery", industry := some "Bakeries" } =
      equireal.calculate_risk_score
        { ({} : equireal.BusinessData) with
          business_type := some "", industry := some "" }) :=
  ⟨⟨rfl, rfl⟩, C5_amended_unknown_strings_get_zero_adjustment "Bakery" "Bakeries" rfl rfl {}⟩

/-- C6: whenever `current_revenue = 0` or `projected_revenue_12m = 0`, the
growth-realism adjustment of `equireal.calculate_risk_score` is 0 and the
score coincides with the pipeline from which the growth branch is deleted:
the division is reachable only under the guard
`current_revenue > 0 and projected_revenue_12m > 0`, and the (total) function
never fails on such inputs. -/
theorem C6_growth_adjustment_skipped_on_zero (b : equireal.BusinessData)
    (h : b.current_revenue.getD 0 = 0 ∨ b.projected_revenue_12m.getD 0 = 0) :
    equireal.growthAdj (b.current_revenue.getD 0) (b.projected_revenue_12m.getD 0) = 0 ∧
    equireal.calculate_risk_score b = equireal.calculate_risk_score_no_growth b := by
  have hg : equireal.growthAdj (b.current_revenue.getD 0)
      (b.projected_revenue_12m.getD 0) = 0 :=
    growthAdj_eq_zero (h.imp le_of_eq le_of_eq)
  refine ⟨hg, ?_⟩
  have hb : equireal.baseScore b = equireal.baseScoreNoGrowth b := by
    unfold equireal.baseScore equireal.baseScoreNoGrowth
    rw [hg]
    ring
  unfold equireal.calculate_risk_score equireal.calculate_risk_score_no_growth
  rw [hb]

/-- Witness for C6 at the record with both revenue fields absent (hence 0). -/
theorem C6_growth_adjustment_skipped_witness :
    (({} : equireal.BusinessData).current_revenue.getD 0 = 0 ∨
      ({} : equireal.BusinessData).projected_revenue_12m.getD 0 = 0) ∧
    (equireal.growthAdj (({} : equireal.BusinessData).current_revenue.getD 0)
        (({} : equireal.BusinessData).projected_revenue_12m.getD 0) = 0 ∧
      equireal.calculate_risk_score {} = equireal.calculate_risk_score_no_growth {}) :=
  ⟨Or.inl rfl, C6_growth_adjustment_skipped_on_zero {} (Or.inl rfl)⟩

/-- C7: the Scenario-A record (Restaurant / Food & Beverage, pre-revenue,
solo first-time founder, no funding, 2-month runway) accumulates
50+28+22+15+18+12+0+30 = 175 before the clamp and scores exactly 90. -/
theorem C7_scenario_A_scores_exactly_90 :
    equireal.baseScore
        { business_type := some "Restaurant", industry := some "Food & Beverage",
          current_revenue := some 0, team_size := some 1,
          founder_experience := some "First-time founder", funding_raised := some 0,
          runway_months := some 2, has_customers := some false,
          has_revenue := some false } = 175 ∧
    equireal.calculate_risk_score
        { business_type := some "Restaurant", industry := some "Food & Beverage",
          current_revenue := some 0, team_size := some 1,
          founder_experience := some "First-time founder", funding_raised := some 0,
          runway_months := some 2, has_customers := some false,
          has_revenue := some false } = 90 := by
  constructor <;>
    norm_num [equireal.calculate_risk_score, equireal.baseScore, equireal.typeAdj,
      equireal.industryAdj, equireal.business_type_risk, equireal.industry_risk,
      equireal.revenueTractionAdj, equireal.growthAdj, equireal.teamAdj,
      equireal.experienceAdj, equireal.experience_impact, equireal.fundingAdj,
      equireal.marketAdj, equireal.runwayAdj, round1, pyround, round_eq]

/-- C8 counterexample: two records identical except for `team_size = 0`
versus `team_size = 1` score 13 and 19 respectively: zero is NOT treated as
a team of one. -/
theorem C8_counterexample_team_zero_differs_from_one :
    equireal.calculate_risk_score
        { business_type := some "SaaS Startup", industry := some "Technology",
          current_revenue := some 0, team_size := some 0,
          founder_experience := some "Previous successful exit",
          runway_months := some 30 } ≠
      equireal.calculate_risk_score
        { business_type := some "SaaS Startup", industry := some "Technology",
          current_revenue := some 0, team_size := some 1,
          founder_experience := some "Previous successful exit",
          runway_months := some 30 } := by
  norm_num [equireal.calculate_risk_score, equireal.baseScore, equireal.typeAdj,
    equireal.industryAdj, equireal.business_type_risk, equireal.industry_risk,
    equireal.revenueTractionAdj, equireal.growthAdj, equireal.teamAdj,
    equireal.experienceAdj, equireal.experience_impact, equireal.fundingAdj,
    equireal.marketAdj, equireal.runwayAdj, round1, pyround, round_eq]

/-- C8 (amended): `calculate_risk_score` treats a team_size of 0 via the
catch-all branch (+12, the same as any size outside the enumerated ranges,
e.g. 26), not like a team of 1 (+18): replacing `team_size = 0` by 26 leaves
the score unchanged for every record. -/
theorem C8_amended_team_zero_gets_catchall_branch :
    equireal.teamAdj 0 = 12 ∧ equireal.teamAdj 1 = 18 ∧
    ∀ b : equireal.BusinessData,
      equireal.calculate_risk_score { b with team_size := some 0 } =
        equireal.calculate_risk_score { b with team_size := some 26 } := by
  refine ⟨by norm_num [equireal.teamAdj], by norm_num [equireal.teamAdj], ?_⟩
  intro b
  have e1 : equireal.baseScore { b with team_size := some 0 } =
      50 + equireal.typeAdj b.business_type + equireal.industryAdj b.industry
        + equireal.revenueTractionAdj (b.current_revenue.getD 0)
        + equireal.growthAdj (b.current_revenue.getD 0) (b.projected_revenue_12m.getD 0)
        + equireal.teamAdj 0
        + equireal.experienceAdj b.founder_experience
        + equireal.fundingAdj (b.funding_raised.getD 0)
        + equireal.marketAdj (b.has_customers.getD false) (b.has_revenue.getD false)
        + equireal.runwayAdj (b.runway_months.getD 0) := rfl
  have e2 : equireal.baseScore { b with team_size := some 26 } =
      50 + equireal.typeAdj b.business_type + equireal.industryAdj b.industry
        + equireal.revenueTractionAdj (b.current_revenue.getD 0)
        + equireal.growthAdj (b.current_revenue.getD 0) (b.projected_revenue_12m.getD 0)
        + equireal.teamAdj 26
        + equireal.experienceAdj b.founder_experience
        + equireal.fundingAdj (b.funding_raised.getD 0)
        + equireal.marketAdj (b.has_customers.getD false) (b.has_revenue.getD false)
        + equireal.runwayAdj (b.runway_months.getD 0) := rfl
  have h0 : equireal.teamAdj 0 = 12 := by norm_num [equireal.teamAdj]
  have h26 : equireal.teamAdj 26 = 12 := by norm_num [equireal.teamAdj]
  have hb : equireal.baseScore { b with team_size := some 0 } =
      equireal.baseScore { b with team_size := some 26 } := by
    rw [e1, e2, h0, h26]
  unfold equireal.calculate_risk_score
  rw [hb]

/-- C9: the scorers and deal-term generators are pure functions of the
business-data record (and risk input): their outputs are invariant under the
identity, name and wall-clock timestamp fields, which is how absence of
hidden state, randomness and clock dependence is expressed in this
embedding; two calls on identical inputs are definitionally equal. -/
theorem C9_scoring_and_terms_ignore_identity_and_timestamp :
    (∀ (b : equireal.BusinessData) (i n t : String),
      equireal.calculate_risk_score { b with id := i, business_name := n, timestamp := t } =
        equireal.calculate_risk_score b) ∧
    (∀ (b : equireal.BusinessData) (r : ℚ) (i n t : String),
      equireal.generate_deal_terms { b with id := i, business_name := n, timestamp := t } r =
        equireal.generate_deal_terms b r) ∧
    (∀ (b : equirealty.BusinessData) (u n : String),
      equirealty.AIAnalysisEngine.calculate_risk_score
          { b with user_id := u, business_name := n } =
        equirealty.AIAnalysisEngine.calculate_risk_score b) ∧
    (∀ (b : equirealty.BusinessData) (ai : equirealty.RiskAnalysis) (u n : String),
      equirealty.BusinessApplication.generate_deal_terms
          { b with user_id := u, business_name := n } ai =
        equirealty.BusinessApplication.generate_deal_terms b ai) :=
  ⟨fun _ _ _ _ => rfl, fun _ _ _ _ _ => rfl, fun _ _ _ => rfl, fun _ _ _ _ => rfl⟩

/-- Witness for C10 at the concrete input `b = {}`, `r = 50`. -/
theorem C10_tighter_ranges_witness :
    ((10 : ℚ) ≤ 50 ∧ (50 : ℚ) ≤ 90) ∧
    ((20 ≤ (equireal.generate_deal_terms {} 50).upfront_rent_percent ∧
      (equireal.generate_deal_terms {} 50).upfront_rent_percent ≤ 42) ∧
    (2 ≤ (equireal.generate_deal_terms {} 50).equity_percent ∧
      (equireal.generate_deal_terms {} 50).equity_percent ≤ 8.2) ∧
    (1.4 ≤ (equireal.generate_deal_terms {} 50).revenue_share_percent ∧
      (equireal.generate_deal_terms {} 50).revenue_share_percent ≤ 4.6)) :=
  ⟨⟨by norm_num, by norm_num⟩,
    C10_tighter_ranges_for_bounded_risk {} 50 (by norm_num) (by norm_num)⟩
